import Mathlib

set_option maxRecDepth 1000000

/-!
Verification of the listing-tracker scrape-dedupe-persist pipeline of the
spice-outreach repository (src/app_package/routes/deal_tracker.py,
hotel_tracker.py, youtube_leads.py), as a shallow embedding in Lean.

Strings are modelled over their code-point sequences (Python `str` indexing,
slicing and `len` are code-point based).  Python `float` arithmetic inside the
price filter is modelled exactly over `ℚ`; the inputs relevant to the claims
involve only small decimal literals where the two agree.  Character-class
tests (`\d`, `str.lower`, `str.strip`) are modelled on their ASCII behaviour,
which coincides with Python on every string appearing in the source and in
the claims.
-/

/-- Python `s.strip()`: remove leading and trailing whitespace
(deal_tracker.py uses it on URLs and city names). -/
def pyStrip (s : String) : String :=
  String.mk (((s.toList.dropWhile Char.isWhitespace).reverse.dropWhile
      Char.isWhitespace).reverse)

/-- Python `s.lower()` (ASCII case folding). -/
def pyLower (s : String) : String :=
  String.mk (s.toList.map Char.toLower)

/-- Python slicing `s[:n]` (first `n` code points). -/
def takeChars (n : Nat) (s : String) : String :=
  String.mk (s.toList.take n)

/-- Python substring containment test over character lists:
`hasSubList n h` is true iff `n` occurs contiguously inside `h`. -/
def hasSubList : List Char → List Char → Bool
  | needle, [] => needle.isEmpty
  | needle, c :: rest => needle.isPrefixOf (c :: rest) || hasSubList needle rest

/-- Python `sub in s` for strings. -/
def inStr (sub s : String) : Bool :=
  hasSubList sub.toList s.toList

/-- Python `re.sub(r'[^\d.]', '', s)` from the deal-tracker price filter:
keep only digits and dots. -/
def stripNonNumeric (s : String) : String :=
  String.mk (s.toList.filter (fun c => c.isDigit || c == '.'))

/-- Python `re.sub(r'[^\d]', '', s)` from the hotel-tracker price filter:
keep only digits. -/
def stripNonDigits (s : String) : String :=
  String.mk (s.toList.filter Char.isDigit)

/-- Numeric value of a digit sequence read in base 10 (value of Python
`int`/`float` on the pure-digit part). -/
def digitsVal (cs : List Char) : Nat :=
  cs.foldl (fun a c => a * 10 + (c.toNat - 48)) 0

/-- A nonnegative decimal number, represented exactly: its value is
`mantissa / 10 ^ fracDigits`.  Python `float` arithmetic in the price filter
is modelled by these exact decimals; the rounding error of binary floats is
far below the integer granularity at which the filter compares. -/
structure DecFloat where
  mantissa : Nat
  fracDigits : Nat
deriving DecidableEq

/-- Python `float(s)` on a string of digits and dots (the only shapes that
reach it in `check_tracker`, since the argument is the residue of
`re.sub(r'[^\d.]', '', price_text)`): it succeeds iff the string has at
least one digit and at most one dot, and its value is the decimal the
string denotes. -/
def parseFloat (s : String) : Option DecFloat :=
  let cs := s.toList
  if cs.any Char.isDigit && decide (cs.count '.' ≤ 1) then
    let intPart := cs.takeWhile (fun c => c != '.')
    let fracPart := (cs.dropWhile (fun c => c != '.')).drop 1
    some ⟨digitsVal (intPart ++ fracPart), fracPart.length⟩
  else
    none

/-- Python `val = float(numeric); val = val * mult; val = int(val)`:
the exact value of `f` times the natural multiplier `mult`, truncated
toward zero (the value is nonnegative, so truncation is floor, i.e. Nat
division). -/
def scaledInt (f : DecFloat) (mult : Nat) : Int :=
  ((f.mantissa * mult) / 10 ^ f.fracDigits : Nat)

/-- Python truthiness of a nullable integer column (`None` and `0` are
falsy); used for `tracker.min_price or tracker.max_price` etc. -/
def truthyInt : Option Int → Bool
  | none => false
  | some v => v != 0

/-- The test `tracker.min_price and val < tracker.min_price`. -/
def lowReject (minP : Option Int) (val : Int) : Bool :=
  match minP with
  | none => false
  | some m => m != 0 && decide (val < m)

/-- The test `tracker.max_price and val > tracker.max_price`. -/
def highReject (maxP : Option Int) (val : Int) : Bool :=
  match maxP with
  | none => false
  | some m => m != 0 && decide (m < val)

/-- The deal-tracker price filter, lines 460-473 of
src/app_package/routes/deal_tracker.py (body of `check_tracker`):

* only runs when `tracker.min_price or tracker.max_price` is truthy;
* `numeric = re.sub(r'[^\d.]', '', price_text)`; an empty residue admits;
* `val = float(numeric)` — a malformed residue (no digit, or two dots)
  raises ValueError, modelled as `.error ()`;
* `val` is multiplied by 100000 when `'lakh' in price_text.lower()`;
* `val = int(val)`, then the bound tests reject (`continue`) or admit.

`.ok true` means the candidate is admitted, `.ok false` rejected. -/
def priceFilter (minP maxP : Option Int) (priceText : String) : Except Unit Bool :=
  if truthyInt minP || truthyInt maxP then
    let numeric := stripNonNumeric priceText
    if numeric = "" then .ok true
    else
      match parseFloat numeric with
      | none => .error ()
      | some f =>
        let mult := if inStr "lakh" (pyLower priceText) then 100000 else 1
        let val := scaledInt f mult
        if lowReject minP val then .ok false
        else if highReject maxP val then .ok false
        else .ok true
  else .ok true

/-- The hotel-tracker price filter, lines 193-200 of
src/app_package/routes/hotel_tracker.py (body of `check_hotel_tracker`):
digits-only residue, `int(numeric)` (which cannot fail on a nonempty digit
string), no lakh conversion.  `true` means admitted. -/
def hotelPriceFilter (minP maxP : Option Int) (priceText : String) : Bool :=
  if truthyInt minP || truthyInt maxP then
    let numeric := stripNonDigits priceText
    if numeric = "" then true
    else
      let val : Int := (digitsVal numeric.toList : Int)
      if lowReject minP val then false
      else if highReject maxP val then false
      else true
  else true

deriving instance DecidableEq for Except

/-- A raw scraped item as produced by the adapters of deal_tracker.py:
a dict with these keys, absent optional fields defaulting to the empty
string (`item.get(key, '')`); only SerpAPI items carry
`platform_override`. -/
structure RawItem where
  title : String
  price : String
  location : String
  url : String
  image_url : String
  description : String
  platform_override : Option String
deriving DecidableEq

/-- A row of the DealTracker table (models.py lines 167-186); only the
columns read by `check_tracker` are modelled.  `platforms` is the decoded
JSON array of the text column, `none` when the column is empty/NULL. -/
structure DealTracker where
  id : Nat
  search_query : String
  category : String
  city : String
  min_price : Option Int
  max_price : Option Int
  platforms : Option (List String)
  is_active : Bool
  last_checked : Option Nat
deriving DecidableEq

/-- A row of the DealListing table (models.py lines 189-205); columns as
written by `check_tracker`. -/
structure DealListing where
  tracker_id : Nat
  title : String
  price : String
  location : String
  url : String
  image_url : String
  platform : String
  description : String
  is_new : Bool
deriving DecidableEq

/-- The persisted DealListing table. -/
structure DealDB where
  listings : List DealListing
deriving DecidableEq

/-- Line 432: `platforms = json.loads(tracker.platforms) if tracker.platforms
else ['serpapi']`. -/
def platformsOf (t : DealTracker) : List String :=
  t.platforms.getD ["serpapi"]

/-- The platform names `check_tracker` dispatches on; any other platform
string hits the final `else: continue`. -/
def knownPlatforms : List String :=
  ["serpapi", "cardekho", "olx", "quikr"]

/-- Items a platform contributes: the adapter result for a known platform,
nothing for an unknown one (`else: continue`).  The `adapters` oracle maps a
platform name to the list the corresponding `scrape_*` call returns for this
tracker's query/city/category. -/
def platformItems (adapters : String → List RawItem) (p : String) : List RawItem :=
  if p ∈ knownPlatforms then adapters p else []

/-- The DealListing constructed for an admitted item (deal_tracker.py lines
478-488); Python string slicing `[:n]` models the explicit truncations. -/
def listingOfItem (tid : Nat) (platform : String) (item : RawItem)
    (itemUrl : String) : DealListing :=
  { tracker_id := tid
    title := takeChars 500 item.title
    price := takeChars 100 item.price
    location := takeChars 200 item.location
    url := takeChars 1000 itemUrl
    image_url := takeChars 1000 item.image_url
    platform := item.platform_override.getD platform
    description := item.description
    is_new := true }

/-- The body of the inner `for item in raw` loop of `check_tracker` (lines
448-490) for one item: skip on empty stripped URL; skip when a listing with
this tracker id and this (full, untruncated) URL already exists — the
duplicate-check query sees both committed rows (`persisted`) and the adds
pending in the session from earlier iterations of this run (`acc`), thanks
to autoflush; then the price filter; an admitted item is appended as a new
pending DealListing.  A ValueError escaping `float` aborts the whole check
(`.error`). -/
def processItem (tid : Nat) (minP maxP : Option Int) (platform : String)
    (persisted acc : List DealListing) (item : RawItem) :
    Except Unit (List DealListing) :=
  let itemUrl := pyStrip item.url
  if itemUrl = "" then .ok acc
  else if (persisted ++ acc).any
      (fun l => l.tracker_id == tid && l.url == itemUrl) then .ok acc
  else
    match priceFilter minP maxP item.price with
    | .error e => .error e
    | .ok false => .ok acc
    | .ok true => .ok (acc ++ [listingOfItem tid platform item itemUrl])

/-- The inner `for item in raw` loop over a whole adapter result. -/
def processPlatform (tid : Nat) (minP maxP : Option Int) (platform : String)
    (persisted : List DealListing) (acc : List DealListing) :
    List RawItem → Except Unit (List DealListing)
  | [] => .ok acc
  | item :: rest =>
    match processItem tid minP maxP platform persisted acc item with
    | .error e => .error e
    | .ok acc2 => processPlatform tid minP maxP platform persisted acc2 rest

/-- The outer `for platform in platforms` loop of `check_tracker`. -/
def processPlatforms (tid : Nat) (minP maxP : Option Int)
    (adapters : String → List RawItem) (persisted : List DealListing)
    (acc : List DealListing) : List String → Except Unit (List DealListing)
  | [] => .ok acc
  | p :: rest =>
    match processPlatform tid minP maxP p persisted acc (platformItems adapters p) with
    | .error e => .error e
    | .ok acc2 => processPlatforms tid minP maxP adapters persisted acc2 rest

/-- `check_tracker(tracker)` (deal_tracker.py lines 430-494).  Runs every
enabled platform, collects the pending new listings, sets
`tracker.last_checked = now` and commits.  `commitOk` is the oracle for
whether `db.session.commit()` succeeds; a failed commit (or a ValueError
escaping the price filter) raises, and the transaction persists nothing.
On success it returns the updated table, the updated tracker row and the
list of newly committed listings (the function's return value). -/
def check_tracker (commitOk : Bool) (db : DealDB) (t : DealTracker)
    (adapters : String → List RawItem) (now : Nat) :
    Except Unit (DealDB × DealTracker × List DealListing) :=
  match processPlatforms t.id t.min_price t.max_price adapters db.listings []
      (platformsOf t) with
  | .error e => .error e
  | .ok news =>
    if commitOk then
      .ok (⟨db.listings ++ news⟩, { t with last_checked := some now }, news)
    else .error ()

/-- `scrape_olx` (deal_tracker.py lines 192-270): the `requests.get` /
`raise_for_status` call is wrapped in `try/except Exception`; on any raised
exception the function logs a warning and returns the (still empty)
`listings` list.  On a successful response the BeautifulSoup selector logic
(abstracted here as `parse`) produces the items. -/
def scrape_olx (parse : String → List RawItem) (fetch : Except String String) :
    List RawItem :=
  match fetch with
  | .error _ => []
  | .ok body => parse body

/-- One invocation of `check_tracker` in a run history: the tracker row it
is called on, the adapter results of this moment, whether the final commit
succeeds, and the current time. -/
structure CheckStep where
  tracker : DealTracker
  adapters : String → List RawItem
  commitOk : Bool
  now : Nat

/-- Effect of one `check_tracker` call on the DealListing table.  A raised
exception (adapter-independent ValueError or failed commit) leaves the
table unchanged — the transaction was not committed. -/
def applyCheck (db : DealDB) (s : CheckStep) : DealDB :=
  match check_tracker s.commitOk db s.tracker s.adapters s.now with
  | .error _ => db
  | .ok (db2, _, _) => db2

/-- The DealListing table after a sequence of `check_tracker` invocations. -/
def runChecks (db : DealDB) (steps : List CheckStep) : DealDB :=
  steps.foldl applyCheck db

/-- The `results` view (deal_tracker.py lines 609-628):
`query(DealListing).filter_by(tracker_id=tracker_id, is_new=True)
.update({'is_new': False})` — every new listing of the tracker is marked
viewed. -/
def mark_viewed (db : DealDB) (tid : Nat) : DealDB :=
  ⟨db.listings.map (fun l =>
    if l.tracker_id == tid && l.is_new then { l with is_new := false } else l)⟩

/-- The operations that touch DealListing rows: pipeline checks and the
results-view mark-viewed update. -/
inductive DealOp where
  | check (s : CheckStep)
  | view (tid : Nat)

/-- Effect of one operation on the DealListing table. -/
def applyOp (db : DealDB) : DealOp → DealDB
  | .check s => applyCheck db s
  | .view tid => mark_viewed db tid

/-- The DealListing table after a sequence of pipeline/view operations. -/
def runOps (db : DealDB) (ops : List DealOp) : DealDB :=
  ops.foldl applyOp db

/-- Outcome of the `check_all` route (deal_tracker.py lines 648-659):
the final DealListing table, the tracker rows (updated where processed),
the accumulated `total_new`, and whether an uncaught exception escaped the
loop (aborting the request). -/
structure SweepResult where
  db : DealDB
  trackers : List DealTracker
  totalNew : Nat
  aborted : Bool
deriving DecidableEq

/-- The `for tracker in trackers` loop of `check_all`.  There is no
try/except around `check_tracker`: a raised persistence error propagates,
so the loop stops, the remaining trackers are left untouched, and the
already-committed work of earlier iterations stays.  (`send_deal_alert`
never raises — its body is wrapped in try/except — and does not touch the
tables, so it is not modelled.) -/
def check_all_go (adapters : Nat → String → List RawItem) (commitOk : Nat → Bool)
    (now : Nat) (db : DealDB) (total : Nat) :
    List DealTracker → SweepResult
  | [] => ⟨db, [], total, false⟩
  | t :: rest =>
    match check_tracker (commitOk t.id) db t (adapters t.id) now with
    | .error _ => ⟨db, t :: rest, total, true⟩
    | .ok (db2, t2, news) =>
      let r := check_all_go adapters commitOk now db2 (total + news.length) rest
      ⟨r.db, t2 :: r.trackers, r.totalNew, r.aborted⟩

/-- `check_all` (deal_tracker.py lines 648-659): query the active trackers
and check each in turn.  `adapters` and `commitOk` are the per-tracker-id
oracles for scrape results and commit success. -/
def check_all (db : DealDB) (trackers : List DealTracker)
    (adapters : Nat → String → List RawItem) (commitOk : Nat → Bool)
    (now : Nat) : SweepResult :=
  check_all_go adapters commitOk now db 0 (trackers.filter (fun t => t.is_active))

/-- On the second encounter of a URL already matched by a table row the
item loop skips the item. -/
def goodListings (L : List DealListing) : Prop :=
  L.Pairwise (fun a b => a.tracker_id = b.tracker_id → a.url ≠ b.url)

instance : DecidablePred goodListings := fun _ =>
  List.instDecidablePairwise _

/-- Item stream of one `check_tracker` invocation: the platform/item pairs
the nested loops visit, in order. -/
def trackerStream (t : DealTracker) (adapters : String → List RawItem) :
    List (String × RawItem) :=
  (platformsOf t).flatMap
    (fun p => (platformItems adapters p).map (fun it => (p, it)))

/-- The flattened item loop: `processPlatforms` visits exactly this stream. -/
def processStream (tid : Nat) (minP maxP : Option Int)
    (persisted : List DealListing) (acc : List DealListing) :
    List (String × RawItem) → Except Unit (List DealListing)
  | [] => .ok acc
  | (p, item) :: rest =>
    match processItem tid minP maxP p persisted acc item with
    | .error e => .error e
    | .ok acc2 => processStream tid minP maxP persisted acc2 rest

/-- The numeric value the deal-tracker price filter compares against the
bounds, as the code computes it: every character other than a digit or dot
is deleted from the whole price text (concatenating all digit runs), the
residue is read as a decimal, and the value is scaled by 100000 exactly
when the substring "lakh" occurs case-insensitively anywhere in the price
text; `none` when `float` would fail on the residue. -/
def comparedValue (priceText : String) : Option Int :=
  (parseFloat (stripNonNumeric priceText)).map (fun f =>
    scaledInt f (if inStr "lakh" (pyLower priceText) then 100000 else 1))

/-- Modelled from the spec: "extract the first decimal run from the opaque
price string via pattern match".  The first maximal run of digit/dot
characters of the text, `none` when there is none. -/
def firstDecimalRun (priceText : String) : Option String :=
  let l := priceText.toList.dropWhile (fun c => !(c.isDigit || c == '.'))
  let run := l.takeWhile (fun c => c.isDigit || c == '.')
  if run.isEmpty then none else some (String.mk run)

/-- Modelled from the spec: the value the spec says is compared against the
bounds — the first decimal run, scaled by 100000 when the "lakh" marker is
present.  For comparison with the code-side `comparedValue`. -/
def specComparedValue (priceText : String) : Option Int :=
  (firstDecimalRun priceText).bind (fun run =>
    (parseFloat run).map (fun f =>
      scaledInt f (if inStr "lakh" (pyLower priceText) then 100000 else 1)))

/-- A fetched YouTube comment as consumed by
`extract_leads_from_comments` (youtube_leads.py lines 149-193 build these
dicts). -/
structure YComment where
  author : String
  author_channel : String
  text : String
  likes : Nat
  published : String
deriving DecidableEq

/-- A scored lead as produced by `extract_leads_from_comments`. -/
structure Lead where
  author : String
  author_channel : String
  text : String
  likes : Nat
  published : String
  emails : List String
  phones : List String
  score : Nat
  keywords : List String
deriving DecidableEq

/-- `BUSINESS_KEYWORDS` (youtube_leads.py lines 24-33), in dict insertion
order, with their weights. -/
def BUSINESS_KEYWORDS : List (String × Nat) :=
  [("interested", 20), ("price", 20), ("pricing", 20), ("cost", 20),
   ("rate", 15), ("bulk", 20), ("supplier", 20), ("supply", 15),
   ("vendor", 15), ("dealer", 15), ("contact", 20), ("whatsapp", 20),
   ("order", 20), ("buy", 15), ("purchase", 15), ("available", 15),
   ("stock", 15), ("deliver", 15), ("delivery", 15), ("ship", 15),
   ("shipping", 15), ("wholesale", 20), ("distributor", 20),
   ("quotation", 20), ("quote", 20), ("sample", 15), ("catalog", 15),
   ("catalogue", 15), ("need", 10), ("require", 10), ("looking for", 15),
   ("want to buy", 20), ("export", 15), ("import", 15), ("business", 10),
   ("company", 10)]

/-- Python `leads.sort(key=lambda x: x['score'], reverse=True)` is a
stable descending sort by score.  It is modelled as a stable insertion
sort, which computes the same output list as every stable descending
sort: an element is placed before the first element of smaller-or-equal
score, so earlier elements stay before later elements of equal score. -/
def insertByScoreDesc (x : Lead) : List Lead → List Lead
  | [] => [x]
  | y :: ys =>
    if y.score ≤ x.score then x :: y :: ys else y :: insertByScoreDesc x ys

/-- The full stable sort (see `insertByScoreDesc`). -/
def sortByScoreDesc : List Lead → List Lead
  | [] => []
  | x :: xs => insertByScoreDesc x (sortByScoreDesc xs)

/-- The false-positive e-mail suffix test
`e.endswith(('.png', '.jpg', '.gif', '.mp4'))`. -/
def badEmailSuffix (e : String) : Bool :=
  [".png", ".jpg", ".gif", ".mp4"].any
    (fun suf => suf.toList.isSuffixOf e.toList)

/-- The keyword loop of `extract_leads_from_comments` (lines 251-254):
running over `BUSINESS_KEYWORDS` in order, each keyword contained in the
lowercased comment text adds its weight once and is appended to
`matched_keywords`.  Returns (keyword score, matched keywords). -/
def keywordScan (textLower : String) : Nat × List String :=
  BUSINESS_KEYWORDS.foldl
    (fun acc kp =>
      if inStr kp.1 textLower then (acc.1 + kp.2, acc.2 ++ [kp.1]) else acc)
    (0, [])

/-- `extract_leads_from_comments(comments, keyword_filter)`
(youtube_leads.py lines 220-281).  The regex primitives and the
30-day-recency test are abstracted as parameters, because the claims hold
for every instantiation:

* `findEmails text` stands for `EMAIL_PATTERN.findall(text)`;
* `findPhones text` stands for `PHONE_PATTERN.findall(text)`;
* `isRecent published` stands for `datetime.fromisoformat` succeeding and
  `now - pub_date < timedelta(days=30)` (the date parse failure swallows
  the bonus via try/except).

Everything else follows the source line by line: the keyword filter skip,
the e-mail suffix filter, the 7-digit phone filter with `strip`, the
score summation (emails 50, phones 40, keyword weights, likes at least 5
give 10, recency 10), and the final stable sort by score descending
(`leads.sort(key=..., reverse=True)`). -/
def extract_leads_from_comments (findEmails findPhones : String → List String)
    (isRecent : String → Bool) (comments : List YComment)
    (keyword_filter : String) : List Lead :=
  let kwFilter := pyStrip (pyLower keyword_filter)
  let leads := comments.filterMap (fun c =>
    let text := c.text
    let textLower := pyLower text
    if kwFilter ≠ "" && !(inStr kwFilter textLower) then none
    else
      let emails := (findEmails text).filter (fun e => !(badEmailSuffix e))
      let phones := ((findPhones text).filter
        (fun p => 7 ≤ (p.toList.filter Char.isDigit).length)).map pyStrip
      let ks := keywordScan textLower
      some { author := c.author
             author_channel := c.author_channel
             text := text
             likes := c.likes
             published := c.published
             emails := emails
             phones := phones
             score := (if emails.isEmpty then 0 else 50)
               + (if phones.isEmpty then 0 else 40) + ks.1
               + (if 5 ≤ c.likes then 10 else 0)
               + (if isRecent c.published then 10 else 0)
             keywords := ks.2 })
  sortByScoreDesc leads

/-- Concrete data for witnesses: a tracker over OLX with no price bounds,
and two scraped items with distinct short URLs. -/
def wTracker : DealTracker :=
  ⟨1, "iphone 13", "phones", "Mumbai", none, none, some ["olx"], true, none⟩

/-- A first short-URL witness item. -/
def wItemA : RawItem :=
  ⟨"iPhone 13 128GB", "₹40,000", "Mumbai", "https://www.olx.in/item/a1", "", "", none⟩

/-- A second short-URL witness item. -/
def wItemB : RawItem :=
  ⟨"iPhone 13 Pro", "₹55,000", "Mumbai", "https://www.olx.in/item/b2", "", "", none⟩

/-- The witness adapter oracle: OLX returns the two items. -/
def wAdapters : String → List RawItem :=
  fun p => if p = "olx" then [wItemA, wItemB] else []

/-- First-run result data for the C2 witness: both short-URL items are
committed. -/
def wDb1 : DealDB :=
  ⟨[listingOfItem 1 "olx" wItemA "https://www.olx.in/item/a1",
    listingOfItem 1 "olx" wItemB "https://www.olx.in/item/b2"]⟩

/-- The witness tracker row after the first run. -/
def wT1 : DealTracker := { wTracker with last_checked := some 0 }

/-- Concrete data for C3: a candidate priced "₹3 Lakh" on an OLX tracker. -/
def c3Item : RawItem :=
  ⟨"Maruti Swift", "₹3 Lakh", "Mumbai", "https://example.com/car1", "", "", none⟩

/-- The C3 tracker with bounds 1000-5000 (rejects "₹3 Lakh"). -/
def c3TrackerLow : DealTracker :=
  ⟨2, "car", "cars", "Mumbai", some 1000, some 5000, some ["olx"], true, none⟩

/-- The C3 tracker with bounds 100000-500000 (admits "₹3 Lakh"). -/
def c3TrackerHigh : DealTracker :=
  ⟨2, "car", "cars", "Mumbai", some 100000, some 500000, some ["olx"], true, none⟩

/-- The C3 adapter oracle: OLX returns the "₹3 Lakh" item. -/
def c3Adapters : String → List RawItem :=
  fun p => if p = "olx" then [c3Item] else []

/-- Concrete data for C5: three active trackers; the commit for tracker 2
fails, trackers 1 and 3 would each contribute one listing. -/
def c5T0 : DealTracker :=
  ⟨1, "q0", "other", "Mumbai", none, none, some ["olx"], true, none⟩

/-- The C5 tracker whose commit fails. -/
def c5T1 : DealTracker :=
  ⟨2, "q1", "other", "Mumbai", none, none, some ["olx"], true, none⟩

/-- The C5 tracker behind the failing one, never run by the sweep. -/
def c5T2 : DealTracker :=
  ⟨3, "q2", "other", "Mumbai", none, none, some ["olx"], true, none⟩

/-- The item tracker 1 scrapes in the C5 scenario. -/
def c5ItemA : RawItem :=
  ⟨"A", "", "", "https://example.com/a", "", "", none⟩

/-- The item tracker 2 scrapes in the C5 scenario. -/
def c5ItemB : RawItem :=
  ⟨"B", "", "", "https://example.com/b", "", "", none⟩

/-- The item tracker 3 would scrape in the C5 scenario. -/
def c5ItemC : RawItem :=
  ⟨"C", "", "", "https://example.com/c", "", "", none⟩

/-- The C5 per-tracker adapter oracle. -/
def c5Ad : Nat → String → List RawItem :=
  fun tid p =>
    if p = "olx" then
      if tid = 1 then [c5ItemA] else if tid = 2 then [c5ItemB] else [c5ItemC]
    else []

/-- The C5 commit oracle: only tracker 2's commit raises. -/
def c5Ck : Nat → Bool := fun tid => tid != 2

/-- The listing tracker 1 commits in the C5 scenario. -/
def c5Listing0 : DealListing :=
  listingOfItem 1 "olx" c5ItemA "https://example.com/a"

/-- Concrete data for the C7 counterexample: a candidate priced "." on a
tracker with configured bounds. -/
def c7Tracker : DealTracker :=
  ⟨3, "car", "cars", "Mumbai", some 1000, some 5000, some ["olx"], true, none⟩

/-- The C7 candidate whose price text is ".". -/
def c7Item : RawItem :=
  ⟨"Mystery", ".", "Mumbai", "https://example.com/x", "", "", none⟩

/-- The C7 adapter oracle. -/
def c7Adapters : String → List RawItem :=
  fun p => if p = "olx" then [c7Item] else []

/-- Concrete data for the C8 witness: one already-viewed listing. -/
def c8Listing : DealListing :=
  ⟨1, "Old", "", "", "https://example.com/old", "", "olx", "", false⟩

/-- The C8 witness table holding the viewed listing. -/
def c8DB : DealDB := ⟨[c8Listing]⟩

/-- Concrete data for the C10 witness: one comment where "bulk" occurs
three times but is scored once (interested 20 + price 20 + bulk 20 +
order 20 + likes 10 = 90). -/
def c10Comment : YComment :=
  ⟨"Alice", "https://youtube.com/@alice",
   "Interested, what is the PRICE? bulk order bulk bulk", 7,
   "2024-01-01T00:00:00Z"⟩

/-- The lead `extract_leads_from_comments` produces for `c10Comment`. -/
def c10Lead : Lead :=
  ⟨"Alice", "https://youtube.com/@alice",
   "Interested, what is the PRICE? bulk order bulk bulk", 7,
   "2024-01-01T00:00:00Z", [], [], 90,
   ["interested", "price", "bulk", "order"]⟩

/-- Two distinct 1001-character URLs sharing their first 1000 characters. -/
def longUrlA : String := String.mk (List.replicate 1000 'a' ++ ['b'])

/-- The second 1001-character URL (see `longUrlA`). -/
def longUrlB : String := String.mk (List.replicate 1000 'a' ++ ['c'])

/-- The item carrying `longUrlA`. -/
def cxItemA : RawItem := ⟨"Item A", "", "", longUrlA, "", "", none⟩

/-- The item carrying `longUrlB`. -/
def cxItemB : RawItem := ⟨"Item B", "", "", longUrlB, "", "", none⟩

/-- The tracker used by the C1/C2 counterexamples (no price bounds). -/
def cxTracker : DealTracker :=
  ⟨9, "q", "other", "Mumbai", none, none, some ["olx"], true, none⟩

/-- The C1 counterexample adapter oracle: OLX returns both long-URL items. -/
def cxAdapters : String → List RawItem :=
  fun p => if p = "olx" then [cxItemA, cxItemB] else []

/-- The C2 counterexample adapter oracle: OLX returns the single
long-URL item, identically on every run. -/
def cx2Adapters : String → List RawItem :=
  fun p => if p = "olx" then [cxItemA] else []

/-- Result counts of two consecutive `check_tracker` runs with the adapter
returning the identical single 1001-character-URL item both times. -/
def cx2RunCounts : Option (Nat × Nat) :=
  match check_tracker true ⟨[]⟩ cxTracker cx2Adapters 0 with
  | .error _ => none
  | .ok (db1, t1, news1) =>
    match check_tracker true db1 t1 cx2Adapters 1 with
    | .error _ => none
    | .ok (_, _, news2) => some (news1.length, news2.length)

/-- On the second encounter of a URL already matched by a table row the
item loop skips the item. -/
theorem processItem_skip_of_mem {tid : Nat} {minP maxP : Option Int}
    {p : String} {Q : List DealListing} {item : RawItem} {l : DealListing}
    (hl : l ∈ Q)
    (hpred : (l.tracker_id == tid && l.url == pyStrip item.url) = true) :
    processItem tid minP maxP p Q [] item = .ok [] := by
  unfold processItem
  by_cases hu : pyStrip item.url = ""
  · rw [if_pos hu]
  · have hany : ((Q ++ []).any
        (fun l2 => l2.tracker_id == tid && l2.url == pyStrip item.url)) = true :=
      List.any_eq_true.mpr ⟨l, List.mem_append_left _ hl, hpred⟩
    rw [if_neg hu, if_pos hany]

/-- An item the price filter rejects is skipped whatever the table holds. -/
theorem processItem_skip_of_reject {tid : Nat} {minP maxP : Option Int}
    {p : String} {Q : List DealListing} {item : RawItem}
    (hf : priceFilter minP maxP item.price = .ok false) :
    processItem tid minP maxP p Q [] item = .ok [] := by
  unfold processItem
  by_cases hu : pyStrip item.url = ""
  · rw [if_pos hu]
  · by_cases hdup : ((Q ++ []).any
        (fun l2 => l2.tracker_id == tid && l2.url == pyStrip item.url)) = true
    · rw [if_neg hu, if_pos hdup]
    · rw [if_neg hu, if_neg hdup, hf]

/-- Processing a concatenated stream is processing the parts in turn. -/
theorem processStream_append (tid : Nat) (minP maxP : Option Int)
    (persisted : List DealListing) (acc : List DealListing)
    (xs ys : List (String × RawItem)) :
    processStream tid minP maxP persisted acc (xs ++ ys) =
      match processStream tid minP maxP persisted acc xs with
      | .error e => .error e
      | .ok acc2 => processStream tid minP maxP persisted acc2 ys := by
  induction xs generalizing acc with
  | nil => rfl
  | cons hd tl ih =>
    obtain ⟨p, item⟩ := hd
    simp only [List.cons_append, processStream]
    cases processItem tid minP maxP p persisted acc item with
    | error e => rfl
    | ok acc2 => exact ih acc2

/-- One platform's item loop as a stream fold. -/
theorem processPlatform_eq_stream (tid : Nat) (minP maxP : Option Int)
    (p : String) (persisted acc : List DealListing) (items : List RawItem) :
    processPlatform tid minP maxP p persisted acc items =
      processStream tid minP maxP persisted acc
        (items.map (fun it => (p, it))) := by
  induction items generalizing acc with
  | nil => rfl
  | cons hd tl ih =>
    simp only [List.map_cons, processPlatform, processStream]
    cases processItem tid minP maxP p persisted acc hd with
    | error e => rfl
    | ok acc2 => exact ih acc2

/-- The nested platform/item loops equal the fold over the flattened
stream. -/
theorem processPlatforms_eq_stream (tid : Nat) (minP maxP : Option Int)
    (adapters : String → List RawItem) (persisted acc : List DealListing)
    (ps : List String) :
    processPlatforms tid minP maxP adapters persisted acc ps =
      processStream tid minP maxP persisted acc
        (ps.flatMap (fun p => (platformItems adapters p).map (fun it => (p, it)))) := by
  induction ps generalizing acc with
  | nil => rfl
  | cons p rest ih =>
    rw [List.flatMap_cons, processStream_append]
    simp only [processPlatforms, processPlatform_eq_stream]
    cases processStream tid minP maxP persisted acc
        ((platformItems adapters p).map (fun it => (p, it))) with
    | error e => rfl
    | ok acc2 => exact ih acc2

/-- `check_tracker` in terms of the flattened item stream. -/
theorem check_tracker_eq_stream (commitOk : Bool) (db : DealDB)
    (t : DealTracker) (adapters : String → List RawItem) (now : Nat) :
    check_tracker commitOk db t adapters now =
      match processStream t.id t.min_price t.max_price db.listings []
          (trackerStream t adapters) with
      | .error e => .error e
      | .ok news =>
        if commitOk then
          .ok (⟨db.listings ++ news⟩, { t with last_checked := some now }, news)
        else .error () := by
  unfold check_tracker trackerStream
  rw [processPlatforms_eq_stream]

/-- One item-loop step either raises, skips, or appends exactly the newly
constructed listing after passing the duplicate check. -/
theorem processItem_shape (tid : Nat) (minP maxP : Option Int) (p : String)
    (persisted acc : List DealListing) (item : RawItem) :
    processItem tid minP maxP p persisted acc item = .error () ∨
    processItem tid minP maxP p persisted acc item = .ok acc ∨
    (pyStrip item.url ≠ "" ∧
      ((persisted ++ acc).any
        (fun l => l.tracker_id == tid && l.url == pyStrip item.url)) = false ∧
      processItem tid minP maxP p persisted acc item =
        .ok (acc ++ [listingOfItem tid p item (pyStrip item.url)])) := by
  unfold processItem
  by_cases hu : pyStrip item.url = ""
  · simp [hu]
  · simp only [if_neg hu]
    by_cases hd : ((persisted ++ acc).any
        (fun l => l.tracker_id == tid && l.url == pyStrip item.url)) = true
    · simp [hd]
    · simp only [Bool.not_eq_true] at hd
      simp only [hd, Bool.false_eq_true, if_false]
      cases hf : priceFilter minP maxP item.price with
      | error e => cases e; simp
      | ok b => cases b <;> simp [hu, hd]

/-- The item loop never removes pending listings. -/
theorem processItem_subset {tid : Nat} {minP maxP : Option Int} {p : String}
    {persisted acc : List DealListing} {item : RawItem}
    {acc2 : List DealListing}
    (h : processItem tid minP maxP p persisted acc item = .ok acc2) :
    ∀ l ∈ acc, l ∈ acc2 := by
  rcases processItem_shape tid minP maxP p persisted acc item with he | ha | ⟨_, _, ha⟩
  · rw [he] at h; cases h
  · rw [ha] at h
    cases h
    exact fun l hl => hl
  · rw [ha] at h
    cases h
    exact fun l hl => List.mem_append_left _ hl

/-- Slicing `[:n]` is the identity on strings of length at most `n`. -/
theorem takeChars_of_short {n : Nat} {s : String} (h : s.length ≤ n) :
    takeChars n s = s := by
  unfold takeChars
  rw [List.take_of_length_le]
  · cases s; rfl
  · exact h

/-- The stream fold never removes pending listings. -/
theorem processStream_subset {tid : Nat} {minP maxP : Option Int}
    {persisted : List DealListing} {s : List (String × RawItem)}
    {acc news : List DealListing}
    (h : processStream tid minP maxP persisted acc s = .ok news) :
    ∀ l ∈ acc, l ∈ news := by
  induction s generalizing acc with
  | nil =>
    simp only [processStream] at h
    cases h
    exact fun l hl => hl
  | cons hd tl ih =>
    obtain ⟨p, item⟩ := hd
    simp only [processStream] at h
    cases hpi : processItem tid minP maxP p persisted acc item with
    | error e => rw [hpi] at h; cases h
    | ok acc2 =>
      rw [hpi] at h
      exact fun l hl => ih h l (processItem_subset hpi l hl)

/-- Dedup-invariant core: a successful pass over an item stream whose
stripped URLs fit the 1000-character cap preserves pairwise-distinct URLs
per tracker. -/
theorem processStream_good {tid : Nat} {minP maxP : Option Int}
    {persisted : List DealListing} {s : List (String × RawItem)}
    {acc news : List DealListing}
    (h : processStream tid minP maxP persisted acc s = .ok news)
    (hshort : ∀ pit ∈ s, (pyStrip pit.2.url).length ≤ 1000)
    (hg : goodListings (persisted ++ acc)) :
    goodListings (persisted ++ news) := by
  induction s generalizing acc with
  | nil =>
    simp only [processStream] at h
    cases h
    exact hg
  | cons hd tl ih =>
    obtain ⟨p, item⟩ := hd
    simp only [processStream] at h
    rcases processItem_shape tid minP maxP p persisted acc item with he | ha | ⟨hu, hdup, ha⟩
    · rw [he] at h; cases h
    · rw [ha] at h
      exact ih h (fun pit hp => hshort pit (List.mem_cons_of_mem _ hp)) hg
    · rw [ha] at h
      refine ih h (fun pit hp => hshort pit (List.mem_cons_of_mem _ hp)) ?_
      have hurl : takeChars 1000 (pyStrip item.url) = pyStrip item.url :=
        takeChars_of_short (hshort (p, item) (List.mem_cons_self _ _))
      unfold goodListings
      rw [← List.append_assoc, List.pairwise_append]
      refine ⟨hg, List.pairwise_singleton _ _, ?_⟩
      intro a ha2 b hb
      rw [List.mem_singleton] at hb
      subst hb
      intro htid
      simp only [listingOfItem, hurl] at htid ⊢
      intro hurl2
      have := (List.any_eq_false.mp hdup) a ha2
      simp only [Bool.and_eq_true, beq_iff_eq, not_and] at this
      exact this htid hurl2

/-- Idempotence core: when a first pass over the item stream succeeded
producing `news`, and every stripped item URL fits the 1000-character
storage cap, a second pass over the same stream against any table `Q`
containing the old rows and the committed `news` adds nothing. -/
theorem processStream_idem {tid : Nat} {minP maxP : Option Int}
    {persisted : List DealListing} {s : List (String × RawItem)}
    {acc news Q : List DealListing}
    (h : processStream tid minP maxP persisted acc s = .ok news)
    (hshort : ∀ pit ∈ s, (pyStrip pit.2.url).length ≤ 1000)
    (hQ : ∀ l, l ∈ persisted ∨ l ∈ news → l ∈ Q) :
    processStream tid minP maxP Q [] s = .ok [] := by
  induction s generalizing acc with
  | nil => rfl
  | cons hd tl ih =>
    obtain ⟨p, item⟩ := hd
    have hshort2 : ∀ pit ∈ tl, (pyStrip pit.2.url).length ≤ 1000 :=
      fun pit hp => hshort pit (List.mem_cons_of_mem _ hp)
    have hurl : takeChars 1000 (pyStrip item.url) = pyStrip item.url :=
      takeChars_of_short (hshort (p, item) (List.mem_cons_self _ _))
    simp only [processStream] at h ⊢
    by_cases hu : pyStrip item.url = ""
    · have h1 : processItem tid minP maxP p persisted acc item = .ok acc := by
        unfold processItem; rw [if_pos hu]
      rw [h1] at h
      have h2 : processItem tid minP maxP p Q [] item = .ok [] := by
        unfold processItem; rw [if_pos hu]
      rw [h2]
      exact ih h hshort2
    · by_cases hdup : ((persisted ++ acc).any
          (fun l => l.tracker_id == tid && l.url == pyStrip item.url)) = true
      · obtain ⟨l, hlmem, hlpred⟩ := List.any_eq_true.mp hdup
        have h1 : processItem tid minP maxP p persisted acc item = .ok acc := by
          unfold processItem; rw [if_neg hu, if_pos hdup]
        rw [h1] at h
        have hlQ : l ∈ Q := by
          rcases List.mem_append.mp hlmem with hP | hA
          · exact hQ l (Or.inl hP)
          · exact hQ l (Or.inr (processStream_subset h l hA))
        rw [processItem_skip_of_mem hlQ hlpred]
        exact ih h hshort2
      · cases hf : priceFilter minP maxP item.price with
        | error e =>
          have h1 : processItem tid minP maxP p persisted acc item = .error e := by
            unfold processItem; rw [if_neg hu, if_neg hdup, hf]
          rw [h1] at h
          cases h
        | ok b =>
          cases b with
          | false =>
            have h1 : processItem tid minP maxP p persisted acc item = .ok acc := by
              unfold processItem; rw [if_neg hu, if_neg hdup, hf]
            rw [h1] at h
            rw [processItem_skip_of_reject hf]
            exact ih h hshort2
          | true =>
            have h1 : processItem tid minP maxP p persisted acc item =
                .ok (acc ++ [listingOfItem tid p item (pyStrip item.url)]) := by
              unfold processItem; rw [if_neg hu, if_neg hdup, hf]
            rw [h1] at h
            have hx : listingOfItem tid p item (pyStrip item.url) ∈ news :=
              processStream_subset h _
                (List.mem_append_right _ (List.mem_singleton_self _))
            have hpredx : ((listingOfItem tid p item (pyStrip item.url)).tracker_id
                == tid &&
                (listingOfItem tid p item (pyStrip item.url)).url
                == pyStrip item.url) = true := by
              simp [listingOfItem, hurl]
            rw [processItem_skip_of_mem (hQ _ (Or.inr hx)) hpredx]
            exact ih h hshort2

/-- When every adapter yields nothing, the item stream is empty. -/
theorem trackerStream_of_empty {t : DealTracker}
    {adapters : String → List RawItem} (hA : ∀ p, adapters p = []) :
    trackerStream t adapters = [] := by
  unfold trackerStream
  have hpi : ∀ p, platformItems adapters p = [] := by
    intro p
    unfold platformItems
    split
    · exact hA p
    · rfl
  induction platformsOf t with
  | nil => rfl
  | cons p rest ih =>
    rw [List.flatMap_cons, hpi p, List.map_nil, List.nil_append]
    exact ih

/-- A `check_tracker` invocation only ever appends rows to the table. -/
theorem applyCheck_shape (db : DealDB) (st : CheckStep) :
    ∃ news, applyCheck db st = ⟨db.listings ++ news⟩ := by
  unfold applyCheck
  cases hc : check_tracker st.commitOk db st.tracker st.adapters st.now with
  | error e => exact ⟨[], by simp⟩
  | ok r =>
    unfold check_tracker at hc
    cases hps : processPlatforms st.tracker.id st.tracker.min_price
        st.tracker.max_price st.adapters db.listings [] (platformsOf st.tracker) with
    | error e => rw [hps] at hc; cases hc
    | ok news =>
      rw [hps] at hc
      cases hok : st.commitOk with
      | false => rw [hok] at hc; cases hc
      | true =>
        rw [hok] at hc
        refine ⟨news, ?_⟩
        cases hc
        rfl

/-- One pipeline or view operation leaves an already-viewed row
untouched. -/
theorem applyOp_viewed_fixed {db : DealDB} (op : DealOp) {i : Nat}
    (h : i < db.listings.length)
    (hv : (db.listings.get ⟨i, h⟩).is_new = false) :
    ∃ h2 : i < (applyOp db op).listings.length,
      (applyOp db op).listings.get ⟨i, h2⟩ = db.listings.get ⟨i, h⟩ := by
  cases op with
  | check st =>
    obtain ⟨news, hshape⟩ := applyCheck_shape db st
    have h2 : i < (applyOp db (.check st)).listings.length := by
      show i < (applyCheck db st).listings.length
      rw [hshape]
      simp only [List.length_append]
      omega
    refine ⟨h2, ?_⟩
    show (applyCheck db st).listings.get _ = _
    have : (applyCheck db st).listings = db.listings ++ news := by rw [hshape]
    rw [List.get_of_eq this]
    exact List.get_append_left _ _ h
  | view tid =>
    have h2 : i < (applyOp db (.view tid)).listings.length := by
      show i < (mark_viewed db tid).listings.length
      simpa [mark_viewed] using h
    refine ⟨h2, ?_⟩
    show (mark_viewed db tid).listings.get _ = _
    unfold mark_viewed
    simp only [List.get_eq_getElem, List.getElem_map]
    rw [show db.listings[i] = db.listings.get ⟨i, h⟩ from rfl, hv]
    simp

/-- Any operation sequence leaves an already-viewed row untouched. -/
theorem runOps_viewed_fixed {db : DealDB} {ops : List DealOp} {i : Nat}
    (h : i < db.listings.length)
    (hv : (db.listings.get ⟨i, h⟩).is_new = false) :
    ∃ h2 : i < (runOps db ops).listings.length,
      (runOps db ops).listings.get ⟨i, h2⟩ = db.listings.get ⟨i, h⟩ := by
  induction ops generalizing db with
  | nil => exact ⟨h, rfl⟩
  | cons op rest ih =>
    obtain ⟨h2, heq⟩ := applyOp_viewed_fixed op h hv
    obtain ⟨h3, heq2⟩ := ih h2 (by rw [heq]; exact hv)
    refine ⟨h3, ?_⟩
    show (runOps (applyOp db op) rest).listings.get ⟨i, h3⟩ = _
    rw [heq2, heq]

/-- Marking a tracker's listings viewed twice equals marking them once. -/
theorem mark_viewed_idem (db : DealDB) (tid : Nat) :
    mark_viewed (mark_viewed db tid) tid = mark_viewed db tid := by
  unfold mark_viewed
  simp only [List.map_map]
  congr 1
  apply List.map_congr_left
  intro a _
  by_cases hc : (a.tracker_id == tid && a.is_new) = true
  · simp [Function.comp, hc]
  · simp only [Bool.not_eq_true] at hc
    simp [Function.comp, hc]

/-- Splitting a sweep after a successfully processed prefix. -/
theorem check_all_go_append_ok {ad : Nat → String → List RawItem}
    {ck : Nat → Bool} {now : Nat} {ts1 : List DealTracker}
    {db db1 : DealDB} {total n1 : Nat} {tr1 : List DealTracker}
    (ts2 : List DealTracker)
    (h : check_all_go ad ck now db total ts1 = ⟨db1, tr1, n1, false⟩) :
    check_all_go ad ck now db total (ts1 ++ ts2) =
      ⟨(check_all_go ad ck now db1 n1 ts2).db,
        tr1 ++ (check_all_go ad ck now db1 n1 ts2).trackers,
        (check_all_go ad ck now db1 n1 ts2).totalNew,
        (check_all_go ad ck now db1 n1 ts2).aborted⟩ := by
  induction ts1 generalizing db total tr1 with
  | nil =>
    cases h
    simp [check_all_go]
  | cons t rest ih =>
    rw [List.cons_append]
    generalize hR2 : check_all_go ad ck now db1 n1 ts2 = R2
    unfold check_all_go at h ⊢
    cases hc : check_tracker (ck t.id) db t (ad t.id) now with
    | error e => rw [hc] at h; cases h
    | ok trip =>
      obtain ⟨db2, t2, news⟩ := trip
      rw [hc] at h
      simp only at h ⊢
      have hr := congrArg SweepResult.aborted h
      have hrdb := congrArg SweepResult.db h
      have hrn := congrArg SweepResult.totalNew h
      have hrt := congrArg SweepResult.trackers h
      simp only at hr hrdb hrn hrt
      have hrest : check_all_go ad ck now db2 (total + news.length) rest =
          ⟨db1, (check_all_go ad ck now db2 (total + news.length) rest).trackers,
            n1, false⟩ := by
        rw [← hrdb, ← hrn, ← hr]
      rw [ih hrest, hR2, ← hrt]
      simp only [List.cons_append]

/-- Membership in a stable insertion step. -/
theorem mem_insertByScoreDesc {a x : Lead} {l : List Lead} :
    a ∈ insertByScoreDesc x l ↔ a = x ∨ a ∈ l := by
  induction l with
  | nil => simp [insertByScoreDesc]
  | cons y ys ih =>
    unfold insertByScoreDesc
    split
    · simp
    · simp only [List.mem_cons, ih]
      tauto

/-- The stable sort permutes: membership is preserved. -/
theorem mem_sortByScoreDesc {a : Lead} {l : List Lead} :
    a ∈ sortByScoreDesc l ↔ a ∈ l := by
  induction l with
  | nil => simp [sortByScoreDesc]
  | cons x xs ih =>
    unfold sortByScoreDesc
    rw [mem_insertByScoreDesc]
    simp [ih]

/-- Stable insertion preserves descending-by-score sortedness. -/
theorem pairwise_insertByScoreDesc {x : Lead} {l : List Lead}
    (h : l.Pairwise (fun a b => b.score ≤ a.score)) :
    (insertByScoreDesc x l).Pairwise (fun a b => b.score ≤ a.score) := by
  induction l with
  | nil => simp [insertByScoreDesc]
  | cons y ys ih =>
    unfold insertByScoreDesc
    rw [List.pairwise_cons] at h
    obtain ⟨hy, hys⟩ := h
    split
    · rename_i hle
      rw [List.pairwise_cons]
      refine ⟨?_, List.pairwise_cons.mpr ⟨hy, hys⟩⟩
      intro z hz
      rcases List.mem_cons.mp hz with hz1 | hz2
      · subst hz1; exact hle
      · exact le_trans (hy z hz2) hle
    · rename_i hgt
      rw [List.pairwise_cons]
      refine ⟨?_, ih hys⟩
      intro z hz
      rcases mem_insertByScoreDesc.mp hz with hz1 | hz2
      · subst hz1
        omega
      · exact hy z hz2

/-- The stable sort output is sorted by non-increasing score. -/
theorem pairwise_sortByScoreDesc (l : List Lead) :
    (sortByScoreDesc l).Pairwise (fun a b => b.score ≤ a.score) := by
  induction l with
  | nil => exact List.Pairwise.nil
  | cons x xs ih => exact pairwise_insertByScoreDesc ih

/-- The keyword loop's score component is the sum of the weights of the
keyword-table entries matched in the text, each counted once. -/
theorem keywordScan_fst (tl : String) :
    (keywordScan tl).1 =
      ((BUSINESS_KEYWORDS.filter (fun kp => inStr kp.1 tl)).map
        (fun kp => kp.2)).sum := by
  unfold keywordScan
  suffices h : ∀ (ks : List (String × Nat)) (a : Nat) (m : List String),
      (ks.foldl (fun acc kp =>
          if inStr kp.1 tl then (acc.1 + kp.2, acc.2 ++ [kp.1]) else acc)
        (a, m)).1
        = a + ((ks.filter (fun kp => inStr kp.1 tl)).map (fun kp => kp.2)).sum by
    simpa using h BUSINESS_KEYWORDS 0 []
  intro ks
  induction ks with
  | nil => intro a m; simp
  | cons kp rest ih =>
    intro a m
    by_cases hk : inStr kp.1 tl = true
    · simp [hk, ih, Nat.add_assoc]
    · simp only [Bool.not_eq_true] at hk
      simp [hk, ih]

/-- Every produced lead's score equals the once-per-keyword
decomposition. -/
theorem extract_leads_score {fE fP : String → List String}
    {iR : String → Bool} {comments : List YComment} {kf : String} {l : Lead}
    (hl : l ∈ extract_leads_from_comments fE fP iR comments kf) :
    l.score = (if l.emails.isEmpty then 0 else 50)
      + (if l.phones.isEmpty then 0 else 40)
      + ((BUSINESS_KEYWORDS.filter
          (fun kp => inStr kp.1 (pyLower l.text))).map (fun kp => kp.2)).sum
      + (if 5 ≤ l.likes then 10 else 0)
      + (if iR l.published then 10 else 0) := by
  unfold extract_leads_from_comments at hl
  rw [mem_sortByScoreDesc] at hl
  obtain ⟨c, hc, hfc⟩ := List.mem_filterMap.mp hl
  simp only at hfc
  split at hfc
  · cases hfc
  · injection hfc with h
    subst h
    simp only
    rw [keywordScan_fst]

/-- One `check_tracker` invocation with short URLs preserves the dedup
invariant. -/
theorem applyCheck_good {db : DealDB} {st : CheckStep}
    (hg : goodListings db.listings)
    (hshort : ∀ pit ∈ trackerStream st.tracker st.adapters,
      (pyStrip pit.2.url).length ≤ 1000) :
    goodListings (applyCheck db st).listings := by
  unfold applyCheck
  rw [check_tracker_eq_stream]
  cases hps : processStream st.tracker.id st.tracker.min_price
      st.tracker.max_price db.listings [] (trackerStream st.tracker st.adapters) with
  | error e => exact hg
  | ok news =>
    cases hc : st.commitOk with
    | false => exact hg
    | true => exact processStream_good hps hshort (by simpa using hg)

/-- Any sequence of `check_tracker` invocations with short URLs preserves
the dedup invariant. -/
theorem runChecks_good {db : DealDB} {steps : List CheckStep}
    (hg : goodListings db.listings)
    (hshort : ∀ st ∈ steps, ∀ pit ∈ trackerStream st.tracker st.adapters,
      (pyStrip pit.2.url).length ≤ 1000) :
    goodListings (runChecks db steps).listings := by
  induction steps generalizing db with
  | nil => exact hg
  | cons st rest ih =>
    exact ih
      (applyCheck_good hg (hshort st (List.mem_cons_self _ _)))
      (fun s hs => hshort s (List.mem_cons_of_mem _ hs))

/-- C1 (amended): after any sequence of `check_tracker` invocations starting
from a table satisfying the dedup invariant, the persisted DealListing rows
still have pairwise distinct `url` values per tracker, PROVIDED every
processed candidate URL (after `strip`) is at most 1000 characters long.
(The duplicate check compares the full URL while the stored row keeps only
`item_url[:1000]`, so longer URLs can defeat the check — see the
counterexample.) -/
theorem C1_dedup_invariant (db : DealDB) (steps : List CheckStep)
    (hg : goodListings db.listings)
    (hshort : ∀ st ∈ steps, ∀ pit ∈ trackerStream st.tracker st.adapters,
      (pyStrip pit.2.url).length ≤ 1000) :
    goodListings (runChecks db steps).listings :=
  runChecks_good hg hshort

/-- Witness for C1: a concrete check run on an empty table with two short
distinct URLs keeps the invariant. -/
theorem C1_dedup_invariant_witness :
    goodListings (DealDB.mk []).listings ∧
    goodListings (runChecks ⟨[]⟩ [⟨wTracker, wAdapters, true, 5⟩]).listings :=
  ⟨by decide, C1_dedup_invariant _ _ (by decide) (by decide)⟩

/-- C2 (amended): if `check_tracker` succeeds and is then run again with
every adapter returning exactly the same result set, the second run commits
zero new DealListing rows (it returns the unchanged table, the tracker row
with only `last_checked` moved, and an empty new-listing list), PROVIDED
every stripped candidate URL is at most 1000 characters long (longer URLs
defeat the duplicate check against the truncated stored URL — see the
counterexample). -/
theorem C2_idempotent_recheck (db : DealDB) (t : DealTracker)
    (ad : String → List RawItem) (now1 now2 : Nat)
    (db1 : DealDB) (t1 : DealTracker) (news : List DealListing)
    (h1 : check_tracker true db t ad now1 = .ok (db1, t1, news))
    (hshort : ∀ pit ∈ trackerStream t ad, (pyStrip pit.2.url).length ≤ 1000) :
    check_tracker true db1 t1 ad now2 =
      .ok (db1, { t1 with last_checked := some now2 }, []) := by
  rw [check_tracker_eq_stream] at h1
  cases hps : processStream t.id t.min_price t.max_price db.listings []
      (trackerStream t ad) with
  | error e => rw [hps] at h1; cases h1
  | ok news0 =>
    rw [hps] at h1
    have h1b : Except.ok ((⟨db.listings ++ news0⟩ : DealDB),
        ({ t with last_checked := some now1 } : DealTracker), news0) =
        Except.ok (db1, t1, news) := h1
    injection h1b with h2
    injection h2 with hA h3
    injection h3 with hB hC
    subst hA
    subst hB
    subst hC
    have hidem : processStream t.id t.min_price t.max_price
        (db.listings ++ news0) [] (trackerStream t ad) = .ok [] :=
      processStream_idem hps hshort
        (fun l hl => by
          rcases hl with hP | hN
          · exact List.mem_append_left _ hP
          · exact List.mem_append_right _ hN)
    rw [check_tracker_eq_stream]
    show (match processStream t.id t.min_price t.max_price
        (db.listings ++ news0) [] (trackerStream t ad) with
      | Except.error e => Except.error e
      | Except.ok news =>
        if (true : Bool) then
          Except.ok ((⟨(db.listings ++ news0) ++ news⟩ : DealDB),
            ({ t with last_checked := some now2 } : DealTracker), news)
        else Except.error ()) =
      Except.ok ((⟨db.listings ++ news0⟩ : DealDB),
        ({ t with last_checked := some now2 } : DealTracker), [])
    rw [hidem]
    simp

/-- Witness for C2: a concrete first run commits two listings; the second
run over the identical adapter output commits none. -/
theorem C2_idempotent_recheck_witness :
    check_tracker true ⟨[]⟩ wTracker wAdapters 0 =
      .ok (wDb1, wT1, wDb1.listings) ∧
    check_tracker true wDb1 wT1 wAdapters 1 =
      .ok (wDb1, { wT1 with last_checked := some 1 }, []) :=
  ⟨by decide,
   C2_idempotent_recheck ⟨[]⟩ wTracker wAdapters 0 1 wDb1 wT1 wDb1.listings
     (by decide) (by decide)⟩

/-- C3: with min_price=1000 and max_price=5000 a candidate priced "₹3 Lakh"
is rejected by the deal-tracker price filter (3 × 100000 = 300000 > 5000),
and `check_tracker` commits nothing for it; with min_price=100000 and
max_price=500000 the same candidate is admitted and committed. -/
theorem C3_lakh_price_bounds :
    priceFilter (some 1000) (some 5000) "₹3 Lakh" = .ok false ∧
    priceFilter (some 100000) (some 500000) "₹3 Lakh" = .ok true ∧
    check_tracker true ⟨[]⟩ c3TrackerLow c3Adapters 0 =
      .ok (⟨[]⟩, { c3TrackerLow with last_checked := some 0 }, []) ∧
    check_tracker true ⟨[]⟩ c3TrackerHigh c3Adapters 0 =
      .ok (⟨[listingOfItem 2 "olx" c3Item "https://example.com/car1"]⟩,
        { c3TrackerHigh with last_checked := some 0 },
        [listingOfItem 2 "olx" c3Item "https://example.com/car1"]) :=
  ⟨by decide, by decide, by decide, by decide⟩

/-- C4 (amended): when a min/max price filter is configured, the numeric
value the deal-tracker filter compares against the bounds is
`comparedValue`: the residue of deleting every character except digits and
dots from the WHOLE price string (concatenating all digit runs, not just
the first), read as a decimal, multiplied by 100000 exactly when "lakh"
occurs case-insensitively anywhere in the price text; the candidate is
admitted iff that value violates neither configured bound. -/
theorem C4_compared_value (minP maxP : Option Int) (text : String) (v : Int)
    (hcfg : (truthyInt minP || truthyInt maxP) = true)
    (hv : comparedValue text = some v) :
    priceFilter minP maxP text =
      .ok (!(lowReject minP v) && !(highReject maxP v)) := by
  unfold priceFilter
  rw [if_pos hcfg]
  unfold comparedValue at hv
  by_cases hn : stripNonNumeric text = ""
  · rw [hn] at hv
    rw [show parseFloat "" = none from rfl] at hv
    simp at hv
  · rw [if_neg hn]
    cases hp : parseFloat (stripNonNumeric text) with
    | none => rw [hp] at hv; simp at hv
    | some f =>
      rw [hp] at hv
      injection hv with hv2
      subst hv2
      show (if lowReject minP
            (scaledInt f (if inStr "lakh" (pyLower text) then 100000 else 1)) then
          (Except.ok false : Except Unit Bool)
        else if highReject maxP
            (scaledInt f (if inStr "lakh" (pyLower text) then 100000 else 1)) then
          Except.ok false
        else Except.ok true) =
        Except.ok (!(lowReject minP
            (scaledInt f (if inStr "lakh" (pyLower text) then 100000 else 1))) &&
          !(highReject maxP
            (scaledInt f (if inStr "lakh" (pyLower text) then 100000 else 1))))
      cases hlow : lowReject minP
          (scaledInt f (if inStr "lakh" (pyLower text) then 100000 else 1)) with
      | true => rfl
      | false =>
        cases hhigh : highReject maxP
            (scaledInt f (if inStr "lakh" (pyLower text) then 100000 else 1)) with
        | true => rfl
        | false => rfl

/-- Witness for C4: with only a min bound of 1000 configured and price text
"₹3 Lakh", the compared value is 300000 and the candidate is admitted. -/
theorem C4_compared_value_witness :
    (truthyInt (some 1000) || truthyInt none) = true ∧
    comparedValue "₹3 Lakh" = some 300000 ∧
    priceFilter (some 1000) none "₹3 Lakh" =
      .ok (!(lowReject (some 1000) 300000) && !(highReject none 300000)) :=
  ⟨by decide, by decide,
   C4_compared_value (some 1000) none "₹3 Lakh" 300000 (by decide) (by decide)⟩

/-- Counterexample for C4 as stated: for price text "3 to 5 Lakh" the code
compares 3500000 (all digit runs concatenated: "35", times 100000), not
300000 (the first decimal run "3" times 100000, which the claim
prescribes).  With min_price=3500000 the filter admits the candidate
although the claimed first-run semantics (300000 < 3500000) would reject
it; min_price=3500001 pins the compared value down to exactly 3500000. -/
theorem C4_counterexample :
    comparedValue "3 to 5 Lakh" = some 3500000 ∧
    specComparedValue "3 to 5 Lakh" = some 300000 ∧
    priceFilter (some 3500000) none "3 to 5 Lakh" = .ok true ∧
    priceFilter (some 3500001) none "3 to 5 Lakh" = .ok false :=
  ⟨by decide, by decide, by decide, by decide⟩

/-- C5 (amended): when `check_tracker` raises a persistence error for a
tracker inside the `check_all` route sweep, the failing tracker's batch is
not persisted and the commits of the earlier trackers in the sweep are
unaffected, but the sweep ABORTS: the route has no per-tracker exception
handling, so the remaining active trackers are not run (their rows are
returned untouched and the aborted flag is set). -/
theorem C5_sweep_abort (db : DealDB) (trackers : List DealTracker)
    (ad : Nat → String → List RawItem) (ck : Nat → Bool) (now : Nat)
    (ts1 ts2 : List DealTracker) (t : DealTracker)
    (db1 : DealDB) (tr1 : List DealTracker) (n1 : Nat)
    (hsplit : trackers.filter (fun tr => tr.is_active) = ts1 ++ t :: ts2)
    (hrun : check_all_go ad ck now db 0 ts1 = ⟨db1, tr1, n1, false⟩)
    (hfail : check_tracker (ck t.id) db1 t (ad t.id) now = .error ()) :
    check_all db trackers ad ck now = ⟨db1, tr1 ++ t :: ts2, n1, true⟩ := by
  unfold check_all
  rw [hsplit, check_all_go_append_ok (t :: ts2) hrun]
  rw [show check_all_go ad ck now db1 n1 (t :: ts2) = ⟨db1, t :: ts2, n1, true⟩
    from by unfold check_all_go; rw [hfail]]

/-- Witness for C5: tracker 1 commits its listing, tracker 2's commit
fails, and the sweep result keeps tracker 1's row while trackers 2 and 3
are returned untouched with the aborted flag set. -/
theorem C5_sweep_abort_witness :
    ([c5T0, c5T1, c5T2].filter (fun tr => tr.is_active) =
      [c5T0] ++ c5T1 :: [c5T2]) ∧
    check_all_go c5Ad c5Ck 7 ⟨[]⟩ 0 [c5T0] =
      ⟨⟨[c5Listing0]⟩, [{ c5T0 with last_checked := some 7 }], 1, false⟩ ∧
    check_tracker (c5Ck c5T1.id) ⟨[c5Listing0]⟩ c5T1 (c5Ad c5T1.id) 7 =
      .error () ∧
    check_all ⟨[]⟩ [c5T0, c5T1, c5T2] c5Ad c5Ck 7 =
      ⟨⟨[c5Listing0]⟩, [{ c5T0 with last_checked := some 7 }] ++ c5T1 :: [c5T2],
        1, true⟩ :=
  ⟨by decide, by decide, by decide,
   C5_sweep_abort ⟨[]⟩ [c5T0, c5T1, c5T2] c5Ad c5Ck 7
     [c5T0] [c5T2] c5T1 ⟨[c5Listing0]⟩
     [{ c5T0 with last_checked := some 7 }] 1
     (by decide) (by decide) (by decide)⟩

/-- Counterexample for C5 as stated: in the same concrete sweep the claim
requires the sweep to continue past the failing tracker 2, i.e. tracker 3
(whose adapter returns a fresh admissible item and whose commit would
succeed) should run and commit.  The code instead aborts: tracker 3 is
returned with `last_checked` still unset, no listing of tracker 3 is
persisted, and the sweep is marked aborted, while tracker 1's earlier
commit is retained. -/
theorem C5_counterexample :
    check_all ⟨[]⟩ [c5T0, c5T1, c5T2] c5Ad c5Ck 7 =
      ⟨⟨[c5Listing0]⟩, [{ c5T0 with last_checked := some 7 }, c5T1, c5T2],
        1, true⟩ ∧
    (∀ l ∈ (check_all ⟨[]⟩ [c5T0, c5T1, c5T2] c5Ad c5Ck 7).db.listings,
      l.tracker_id ≠ 3) ∧
    c5Ck 3 = true ∧
    c5Ad 3 "olx" = [c5ItemC] ∧
    c5T2.is_active = true :=
  ⟨by decide, by decide, by decide, by decide, by decide⟩

/-- C6: when the adapter's network call raises (`requests.get` or
`raise_for_status` throwing, as with a timeout), `scrape_olx` swallows the
exception and yields no items, so the single-tracker check completes
without raising: it commits zero new listings, leaves the table unchanged
and still sets `tracker.last_checked` to the current time. -/
theorem C6_adapter_error_safe (db : DealDB) (t : DealTracker) (now : Nat)
    (parse : String → List RawItem) (err : String) :
    check_tracker true db t (fun _ => scrape_olx parse (Except.error err)) now =
      .ok (db, { t with last_checked := some now }, []) := by
  rw [check_tracker_eq_stream]
  have he : trackerStream t (fun _ => scrape_olx parse (Except.error err)) = [] :=
    trackerStream_of_empty (fun p => rfl)
  rw [he]
  show (if (true : Bool) then
      Except.ok ((⟨db.listings ++ []⟩ : DealDB),
        ({ t with last_checked := some now } : DealTracker), ([] : List DealListing))
    else Except.error ()) = _
  simp

/-- C7 (amended): when a price filter is configured, a candidate whose
price text contains NO digit and NO dot character (in particular the empty
string) is always admitted: the stripped residue is empty and the filter
falls through.  (A text with a dot but no digit, such as ".", instead
crashes the check — see the counterexample; this is the one deviation from
the claim's "no numeric run is always admitted".) -/
theorem C7_no_numeric_admitted (minP maxP : Option Int) (text : String)
    (h : ∀ c ∈ text.toList, ¬c.isDigit ∧ c ≠ '.') :
    priceFilter minP maxP text = .ok true := by
  have hs : stripNonNumeric text = "" := by
    unfold stripNonNumeric
    have hf : text.toList.filter (fun c => c.isDigit || c == '.') = [] := by
      rw [List.filter_eq_nil]
      intro a ha
      obtain ⟨h1, h2⟩ := h a ha
      simp [h1, h2]
    rw [hf]
  unfold priceFilter
  rw [hs]
  split
  · rfl
  · rfl

/-- Witness for C7: the empty price text passes a configured filter. -/
theorem C7_no_numeric_admitted_witness :
    (∀ c ∈ ("" : String).toList, ¬c.isDigit ∧ c ≠ '.') ∧
    priceFilter (some 1000) (some 5000) "" = .ok true :=
  ⟨by decide, C7_no_numeric_admitted (some 1000) (some 5000) "" (by decide)⟩

/-- Counterexample for C7 as stated: the price text "." contains no numeric
run, yet the candidate is NOT admitted — `float(".")` raises ValueError
(the stripped residue "." is nonempty but unparseable), the filter errors
and the whole tracker check aborts instead of committing the candidate. -/
theorem C7_counterexample :
    priceFilter (some 1000) (some 5000) "." = .error () ∧
    check_tracker true ⟨[]⟩ c7Tracker c7Adapters 0 = .error () :=
  ⟨by decide, by decide⟩

/-- C8: (i) once a DealListing row has `is_new = false`, no sequence of
pipeline operations (`check_tracker`) or view operations (the `results`
route's mark-viewed update) ever modifies that row again — in particular
`is_new` never returns to true; (ii) repeating the mark-viewed action is a
no-op (the update is idempotent). -/
theorem C8_viewed_one_way :
    (∀ (db : DealDB) (ops : List DealOp) (i : Nat)
      (h : i < db.listings.length),
      (db.listings.get ⟨i, h⟩).is_new = false →
      ∃ h2 : i < (runOps db ops).listings.length,
        (runOps db ops).listings.get ⟨i, h2⟩ = db.listings.get ⟨i, h⟩) ∧
    (∀ (db : DealDB) (tid : Nat),
      mark_viewed (mark_viewed db tid) tid = mark_viewed db tid) :=
  ⟨fun _ _ _ h hv => runOps_viewed_fixed h hv, mark_viewed_idem⟩

/-- Witness for C8: after a mark-viewed and a further check of the same
tracker the viewed listing is untouched (still `is_new = false`). -/
theorem C8_viewed_one_way_witness :
    ((c8DB.listings.get ⟨0, by decide⟩).is_new = false) ∧
    (∃ h2 : 0 < (runOps c8DB
        [DealOp.view 1, DealOp.check ⟨wTracker, wAdapters, true, 9⟩]).listings.length,
      (runOps c8DB
        [DealOp.view 1, DealOp.check ⟨wTracker, wAdapters, true, 9⟩]).listings.get
          ⟨0, h2⟩ = c8DB.listings.get ⟨0, by decide⟩) :=
  ⟨by decide,
   C8_viewed_one_way.1 c8DB
     [DealOp.view 1, DealOp.check ⟨wTracker, wAdapters, true, 9⟩]
     0 (by decide) (by decide)⟩

/-- C9: a price bound equal to 0 is treated as absent, for both the
deal-tracker and hotel-tracker price filters: a 0 bound behaves exactly
like a missing (None) bound, and when both bounds are 0 or both are None
the filter is skipped entirely (every candidate is admitted and the parse
can never raise). -/
theorem C9_zero_bounds_absent :
    (∀ (maxP : Option Int) (text : String),
      priceFilter (some 0) maxP text = priceFilter none maxP text) ∧
    (∀ (minP : Option Int) (text : String),
      priceFilter minP (some 0) text = priceFilter minP none text) ∧
    (∀ text, priceFilter (some 0) (some 0) text = .ok true) ∧
    (∀ text, priceFilter none none text = .ok true) ∧
    (∀ (maxP : Option Int) (text : String),
      hotelPriceFilter (some 0) maxP text = hotelPriceFilter none maxP text) ∧
    (∀ (minP : Option Int) (text : String),
      hotelPriceFilter minP (some 0) text = hotelPriceFilter minP none text) ∧
    (∀ text, hotelPriceFilter (some 0) (some 0) text = true) ∧
    (∀ text, hotelPriceFilter none none text = true) :=
  ⟨fun _ _ => rfl, fun _ _ => rfl, fun _ => rfl, fun _ => rfl,
   fun _ _ => rfl, fun _ _ => rfl, fun _ => rfl, fun _ => rfl⟩

/-- C10: for every comment list (and every instantiation of the regex and
recency primitives), `extract_leads_from_comments` returns the leads in
non-increasing score order, and each lead's score decomposes as: 50 when it
has e-mails, plus 40 when it has phones, plus, for each BUSINESS_KEYWORDS
entry whose keyword occurs in the lowercased comment text, that entry's
weight EXACTLY ONCE (the sum ranges over the keyword table, not over
occurrences), plus 10 for at least 5 likes, plus 10 for a recent
publication date. -/
theorem C10_leads_sorted_scored (fE fP : String → List String)
    (iR : String → Bool) (comments : List YComment) (kf : String) :
    (extract_leads_from_comments fE fP iR comments kf).Pairwise
      (fun a b => b.score ≤ a.score) ∧
    ∀ l ∈ extract_leads_from_comments fE fP iR comments kf,
      l.score = (if l.emails.isEmpty then 0 else 50)
        + (if l.phones.isEmpty then 0 else 40)
        + ((BUSINESS_KEYWORDS.filter
            (fun kp => inStr kp.1 (pyLower l.text))).map (fun kp => kp.2)).sum
        + (if 5 ≤ l.likes then 10 else 0)
        + (if iR l.published then 10 else 0) := by
  constructor
  · unfold extract_leads_from_comments
    exact pairwise_sortByScoreDesc _
  · exact fun _ hl => extract_leads_score hl

/-- Witness for C10: the concrete lead appears in the output and its score
matches the once-per-keyword decomposition. -/
theorem C10_leads_sorted_scored_witness :
    c10Lead ∈ extract_leads_from_comments (fun _ => []) (fun _ => [])
      (fun _ => false) [c10Comment] "" ∧
    c10Lead.score = (if c10Lead.emails.isEmpty then 0 else 50)
      + (if c10Lead.phones.isEmpty then 0 else 40)
      + ((BUSINESS_KEYWORDS.filter
          (fun kp => inStr kp.1 (pyLower c10Lead.text))).map (fun kp => kp.2)).sum
      + (if 5 ≤ c10Lead.likes then 10 else 0)
      + (if (fun (_ : String) => false) c10Lead.published then 10 else 0) :=
  ⟨by decide,
   (C10_leads_sorted_scored (fun _ => []) (fun _ => []) (fun _ => false)
     [c10Comment] "").2 c10Lead (by decide)⟩

/-- Counterexample for C1 as stated: one `check_tracker` run over two
distinct 1001-character URLs agreeing on their first 1000 characters
commits two rows for the same tracker with IDENTICAL stored `url` values:
the duplicate check compares full URLs, but the row stores only
`item_url[:1000]`, so both candidates pass the check and collide after
truncation. -/
theorem C1_counterexample :
    ¬ goodListings (runChecks ⟨[]⟩ [⟨cxTracker, cxAdapters, true, 0⟩]).listings ∧
    (runChecks ⟨[]⟩ [⟨cxTracker, cxAdapters, true, 0⟩]).listings.length = 2 :=
  ⟨by decide, by decide⟩

/-- Counterexample for C2 as stated: with a 1001-character candidate URL,
the second run over the identical adapter result set commits one new row
again (the stored URL was truncated to 1000 characters, so the duplicate
query with the full URL misses it), not zero. -/
theorem C2_counterexample : cx2RunCounts = some (1, 1) := by decide
